import Mathlib

/-!
Verification development for the httpmock library (shawalli/httpmock).

The server layer (`Server`, `ServerConfig`, `makeHandler`, `NewServer`,
`NewServerWithConfig`, `NotRecoverable`, `IsRecoverable`, `Server.On`) is a
shallow embedding of `src/server.go`.  The expectation registry (`Mock`,
`Mock.On`, `Mock.Requested`, `Mock.fail`) is not part of the available source
files; those definitions are modelled from the specification, as marked in
their doc comments.

Bytes are modelled as `Nat`, panic values (Go `interface` values rendered by
the format verb used in the handler) and error values as `String`.
-/

namespace Httpmock

/-- An inbound HTTP request as observed by the matching engine: method,
URL (path plus query), headers, raw body bytes. -/
structure Request where
  method : String
  url : String
  headers : List (String × String)
  body : List Nat
  deriving DecidableEq, Repr

/-- A configured response: status code, ordered headers, body bytes, optional
delay.  `parentDesc` models the Go response's back-pointer to its parent
expectation (`response.parent`), rendered the way the server handler renders
it (`response.parent.String()`). -/
structure Response where
  statusCode : Nat
  headers : List (String × String)
  body : List Nat
  delay : Option Nat
  parentDesc : String
  deriving DecidableEq, Repr

/-- Modelled from the spec: an Expectation is a registered rule
`(method, urlPattern, bodyMatcher, headerMatchers, response, timesExpected,
timesMatched)`.  `timesExpected = none` means unbounded.  Pattern- or
predicate-based matchers are modelled by their default data forms (exact
match), per the spec's stated defaults. -/
structure Expectation where
  method : String
  urlPattern : String
  bodyMatcher : Option (List Nat)
  headerMatchers : List (String × String)
  response : Response
  timesExpected : Option Nat
  timesMatched : Nat
  deriving DecidableEq, Repr

/-- Modelled from the spec: `Matches(expectation, request)`.  Method is
case-sensitive exact match, empty method matches any; URL is exact match on
the full request target; when a body matcher is declared the request body
must satisfy it (default byte-exact), otherwise any body matches; each
required header pair must be present in the request, extra request headers
are ignored. -/
def Matches (e : Expectation) (r : Request) : Bool :=
  (e.method == "" || e.method == r.method) &&
  (e.urlPattern == r.url) &&
  (match e.bodyMatcher with
   | none => true
   | some b => b == r.body) &&
  (e.headerMatchers.all (fun p => r.headers.contains p))

/-- Modelled from the spec: an expectation is still eligible when it has
remaining allowed matches (`timesMatched < timesExpected`, or unbounded). -/
def Expectation.eligible (e : Expectation) : Bool :=
  match e.timesExpected with
  | none => true
  | some n => decide (e.timesMatched < n)

/-- Modelled from the spec: the registry invariant
`timesMatched <= timesExpected` unless unbounded. -/
def Expectation.countInvariant (e : Expectation) : Prop :=
  match e.timesExpected with
  | none => True
  | some n => e.timesMatched ≤ n

instance (e : Expectation) : Decidable e.countInvariant := by
  unfold Expectation.countInvariant
  cases e.timesExpected <;> infer_instance

/-- Modelled from the spec: the Expectation Registry (Go type `Mock`): an
ordered sequence of expectations (insertion order = registration order) plus
the accumulated failure diagnostics. -/
structure Mock where
  expectations : List Expectation
  failures : List String
  deriving DecidableEq, Repr

/-- Modelled from the spec: `fail(format, args...)` records a failure message
associated with this Mock. -/
def Mock.fail (m : Mock) (msg : String) : Mock :=
  { m with failures := m.failures ++ [msg] }

/-- Description of an expectation as rendered by the Go `Request.String`
method; modelled from the spec's diagnostic requirement (method and URL). -/
def Expectation.describe (e : Expectation) : String :=
  e.method ++ " " ++ e.urlPattern

/-- Modelled from the spec: the expectation a registration call with the
given minimal matching criteria appends: default empty response (well-formed
200), repeat count default 1, no matches yet.  A `none` body (Go nil slice)
declares no body matcher. -/
def newExpectation (method : String) (URL : String) (body : Option (List Nat)) :
    Expectation :=
  { method := method
    urlPattern := URL
    bodyMatcher := body
    headerMatchers := []
    response :=
      { statusCode := 200
        headers := []
        body := []
        delay := none
        parentDesc := method ++ " " ++ URL }
    timesExpected := some 1
    timesMatched := 0 }

/-- Modelled from the spec: `On(method, url, body)` registers a new
expectation with the given minimal criteria and a default response, appended
to the ordered sequence, and returns a handle to it (modelled, per the spec's
design note, as the index into the ordered sequence). -/
def Mock.On (m : Mock) (method : String) (URL : String)
    (body : Option (List Nat)) : Mock × Nat :=
  ({ m with expectations := m.expectations ++ [newExpectation method URL body] },
   m.expectations.length)

/-- Modelled from the spec: the synthetic "not found" response returned on
`NoMatchFound` (HTTP 404 semantics). -/
def notFoundResponse : Response :=
  { statusCode := 404, headers := [], body := [], delay := none, parentDesc := "" }

/-- Modelled from the spec: the human-readable `NoMatchFound` diagnostic
(method and URL of the unmatched request). -/
def noMatchMsg (r : Request) : String :=
  "no expectation matched request: " ++ r.method ++ " " ++ r.url

/-- Modelled from the spec: the scan of `Requested` over the ordered
expectation sequence: the first expectation that matches and still has
remaining allowed matches is consumed (its `timesMatched` incremented) and
its configured response snapshot returned. -/
def requestedScan (es : List Expectation) (r : Request) :
    Option (List Expectation × Response) :=
  match es with
  | [] => none
  | e :: rest =>
    if Matches e r && e.eligible then
      some ({ e with timesMatched := e.timesMatched + 1 } :: rest, e.response)
    else
      (requestedScan rest r).map (fun p => (e :: p.1, p.2))

/-- Modelled from the spec: `Requested(request)` scans expectations in
registration order, selects the first matching, still-eligible expectation,
increments its `timesMatched` and returns its response; if none is eligible
it records a `NoMatchFound` failure and returns the synthetic 404 response. -/
def Mock.Requested (m : Mock) (r : Request) : Mock × Response :=
  match requestedScan m.expectations r with
  | some p => ({ m with expectations := p.1 }, p.2)
  | none => (m.fail (noMatchMsg r), notFoundResponse)

/-- Result of running an arbitrary custom handler on a request: it either
panics with some value or completes, having written some status. -/
inductive CustomResult where
  | panics (v : String)
  | writes (status : Nat)

/-- The handler installed in the underlying test server: either the default
dispatch handler produced by `makeHandler`, or a caller-supplied custom
handler installed unwrapped. -/
inductive InstalledHandler where
  | default
  | custom (f : Request → CustomResult)

/-- `Server` from src/server.go: wraps the test server, owns a `Mock`, and
carries the panic policy flag `ignorePanic` (false = recoverable).  `tls`
records which underlying transport constructor was used. -/
structure Server where
  mock : Mock
  ignorePanic : Bool
  tls : Bool
  handler : InstalledHandler

/-- `ServerConfig` from src/server.go: TLS selection and an optional custom
handler (Go `nil` handler modelled as `none`). -/
structure ServerConfig where
  TLS : Bool
  Handler : Option (Request → CustomResult)

/-- `IsRecoverable` from src/server.go: returns `!s.ignorePanic`. -/
def Server.IsRecoverable (s : Server) : Bool :=
  !s.ignorePanic

/-- `NotRecoverable` from src/server.go: sets `ignorePanic` and returns the
server. -/
def Server.NotRecoverable (s : Server) : Server :=
  { s with ignorePanic := true }

/-- What the externally-provided computations inside one dispatch do: either
a runtime fault (panic) occurs during matching/writing, or the dispatch body
completes with the write's error result (`none` = nil error). -/
inductive DispatchEvent where
  | panics (v : String)
  | completes (writeErr : Option String)
  deriving DecidableEq, Repr

/-- Externally observable outcome of one request at the handler boundary:
whether a panic escaped the handler, what diagnostic the handler printed,
and the status code written to the client (`none` when handling aborted
before a status was written). -/
structure HandlerOutcome where
  escapedPanic : Option String
  printed : Option String
  status : Option Nat
  deriving DecidableEq, Repr

/-- The failure message the handler passes to `Mock.fail` on a write error,
from src/server.go: `"failed to write response for request:\n%s\nwith
error: %v"` formatted with `response.parent.String()` and the error. -/
def writeFailMsg (parentDesc : String) (err : String) : String :=
  "failed to write response for request:\n" ++ parentDesc ++
    "\nwith error: " ++ err

/-- `makeHandler` from src/server.go: the default dispatch handler.  A
deferred recover intercepts a panic when the server is recoverable (printing
the value and writing 404) and re-raises it otherwise; the body obtains a
response via `Mock.Requested` and writes it, forwarding any write error to
`Mock.fail`. -/
def makeHandler (s : Server) (r : Request) (ev : DispatchEvent) :
    Server × HandlerOutcome :=
  match ev with
  | .panics v =>
    if s.IsRecoverable then
      (s, { escapedPanic := none, printed := some v, status := some 404 })
    else
      (s, { escapedPanic := some v, printed := none, status := none })
  | .completes writeErr =>
    let p := s.mock.Requested r
    match writeErr with
    | some e =>
      ({ s with mock := (p.1).fail (writeFailMsg (p.2).parentDesc e) },
       { escapedPanic := none, printed := none, status := some (p.2).statusCode })
    | none =>
      ({ s with mock := p.1 },
       { escapedPanic := none, printed := none, status := some (p.2).statusCode })

/-- One inbound request dispatched by the server's installed handler.  A
custom handler runs unwrapped: none of the library's dispatch logic applies,
and a panic in it propagates. -/
def serveRequest (s : Server) (r : Request) (ev : DispatchEvent) :
    Server × HandlerOutcome :=
  match s.handler with
  | .default => makeHandler s r ev
  | .custom f =>
    match f r with
    | .panics v => (s, { escapedPanic := some v, printed := none, status := none })
    | .writes st => (s, { escapedPanic := none, printed := none, status := some st })

/-- `NewServer` from src/server.go: fresh `Mock`, default handler, plain
transport; `ignorePanic` is the zero value false. -/
def NewServer : Server :=
  { mock := { expectations := [], failures := [] }
    ignorePanic := false
    tls := false
    handler := .default }

/-- `NewServerWithConfig` from src/server.go: fresh `Mock`; the configured
handler is installed directly when non-nil, otherwise the default handler;
the transport is TLS or plain per `cfg.TLS`. -/
def NewServerWithConfig (cfg : ServerConfig) : Server :=
  { mock := { expectations := [], failures := [] }
    ignorePanic := false
    tls := cfg.TLS
    handler :=
      match cfg.Handler with
      | some f => .custom f
      | none => .default }

/-- `Server.On` from src/server.go: convenience passthrough invoking
`Mock.On` on the server's mock. -/
def Server.On (s : Server) (method : String) (URL : String)
    (body : Option (List Nat)) : Server × Nat :=
  let p := s.mock.On method URL body
  ({ s with mock := p.1 }, p.2)

/-- The exported operations of the package that act on one server, used to
state lifetime properties over arbitrary interleavings. -/
inductive ServerOp where
  | notRecoverable
  | isRecoverable
  | onReq (method : String) (URL : String) (body : Option (List Nat))
  | serve (r : Request) (ev : DispatchEvent)
  deriving DecidableEq

/-- Apply one exported operation to a server (reads leave it unchanged). -/
def applyOp (s : Server) : ServerOp → Server
  | .notRecoverable => s.NotRecoverable
  | .isRecoverable => s
  | .onReq m u b => (s.On m u b).1
  | .serve r ev => (serveRequest s r ev).1

/-- Apply a sequence of exported operations left to right. -/
def applyOps (s : Server) (ops : List ServerOp) : Server :=
  ops.foldl applyOp s

/-- A world of independently constructed servers, modelling the process
heap: each constructor call appends a fresh instance and returns its
identity (heap index). -/
structure World where
  servers : List Server

/-- `NewServer` at the heap level: allocates a fresh server (with its fresh
`Mock`) and returns its identity. -/
def NewServerW (w : World) : World × Nat :=
  (⟨w.servers ++ [NewServer]⟩, w.servers.length)

/-- `NewServerWithConfig` at the heap level. -/
def NewServerWithConfigW (w : World) (cfg : ServerConfig) : World × Nat :=
  (⟨w.servers ++ [NewServerWithConfig cfg]⟩, w.servers.length)

/-- Apply an exported operation to the server with the given identity,
leaving every other instance in place. -/
def applyOpW (w : World) (i : Nat) (op : ServerOp) : World :=
  match w.servers[i]? with
  | some s => ⟨w.servers.set i (applyOp s op)⟩
  | none => w

end Httpmock

namespace Httpmock

/-! ## Helper lemmas -/

/-- Dispatch never changes the panic-policy flag. -/
lemma serveRequest_fst_ignorePanic (s : Server) (r : Request) (ev : DispatchEvent) :
    (serveRequest s r ev).1.ignorePanic = s.ignorePanic := by
  obtain ⟨mk, ip, tl, hd⟩ := s
  cases hd with
  | default =>
    cases ev with
    | panics v =>
      by_cases h : Server.IsRecoverable ⟨mk, ip, tl, .default⟩ <;>
        simp [serveRequest, makeHandler, h]
    | completes we => cases we <;> simp [serveRequest, makeHandler]
  | custom f => cases hf : f r <;> simp [serveRequest, hf]

/-- Dispatch never changes the installed handler. -/
lemma serveRequest_fst_handler (s : Server) (r : Request) (ev : DispatchEvent) :
    (serveRequest s r ev).1.handler = s.handler := by
  obtain ⟨mk, ip, tl, hd⟩ := s
  cases hd with
  | default =>
    cases ev with
    | panics v =>
      by_cases h : Server.IsRecoverable ⟨mk, ip, tl, .default⟩ <;>
        simp [serveRequest, makeHandler, h]
    | completes we => cases we <;> simp [serveRequest, makeHandler]
  | custom f => cases hf : f r <;> simp [serveRequest, hf]

/-- No exported operation other than `NotRecoverable` changes the panic
policy flag. -/
lemma applyOp_ignorePanic_of_ne (s : Server) (op : ServerOp)
    (h : op ≠ ServerOp.notRecoverable) :
    (applyOp s op).ignorePanic = s.ignorePanic := by
  cases op with
  | notRecoverable => exact absurd rfl h
  | isRecoverable => rfl
  | onReq m u b => rfl
  | serve r ev => exact serveRequest_fst_ignorePanic s r ev

/-- No exported operation ever clears the panic-policy flag. -/
lemma applyOp_ignorePanic_true (s : Server) (op : ServerOp)
    (h : s.ignorePanic = true) : (applyOp s op).ignorePanic = true := by
  cases op with
  | notRecoverable => rfl
  | isRecoverable => exact h
  | onReq m u b => exact h
  | serve r ev => exact (serveRequest_fst_ignorePanic s r ev).trans h

/-- Once set, the panic-policy flag survives any sequence of exported
operations. -/
lemma applyOps_ignorePanic_true (ops : List ServerOp) (s : Server)
    (h : s.ignorePanic = true) : (applyOps s ops).ignorePanic = true := by
  induction ops generalizing s with
  | nil => exact h
  | cons op rest ih => exact ih (applyOp s op) (applyOp_ignorePanic_true s op h)

/-- While clear, the panic-policy flag stays clear under any sequence of
exported operations avoiding `NotRecoverable`. -/
lemma applyOps_ignorePanic_false (ops : List ServerOp) (s : Server)
    (h : s.ignorePanic = false) (hops : ∀ op ∈ ops, op ≠ ServerOp.notRecoverable) :
    (applyOps s ops).ignorePanic = false := by
  induction ops generalizing s with
  | nil => exact h
  | cons op rest ih =>
    refine ih (applyOp s op) ?_ ?_
    · rw [applyOp_ignorePanic_of_ne s op (hops op (List.mem_cons_self op rest))]
      exact h
    · intro o ho
      exact hops o (List.mem_cons_of_mem op ho)

end Httpmock

namespace Httpmock

/-! ## Claim theorems -/

/-- Claim C1: with the default handler and the server in the Recoverable
state, a runtime fault during dispatch is intercepted at the handler
boundary: its value is printed as a diagnostic, the client receives a 404
response, no panic escapes the handler, and the server state is unchanged so
subsequent requests keep being served. -/
theorem recoverable_panic_intercepted (s : Server) (r : Request) (v : String)
    (hh : s.handler = InstalledHandler.default) (hr : s.IsRecoverable = true) :
    serveRequest s r (.panics v) =
      (s, { escapedPanic := none, printed := some v, status := some 404 }) := by
  obtain ⟨mk, ip, tl, hd⟩ := s
  subst hh
  simp [serveRequest, makeHandler, hr]

/-- Witness for C1 at a concrete server and request. -/
theorem recoverable_panic_intercepted_witness :
    serveRequest NewServer ⟨"GET", "/x", [], []⟩ (.panics "boom") =
      (NewServer, { escapedPanic := none, printed := some "boom", status := some 404 }) :=
  recoverable_panic_intercepted NewServer ⟨"GET", "/x", [], []⟩ "boom" rfl rfl

/-- Claim C2: with the default handler and the server in the NotRecoverable
state, a runtime fault during dispatch is re-raised and propagates out of the
dispatch path: handling of that request is aborted with nothing printed and
no 404 (no status at all) written. -/
theorem notrecoverable_panic_propagates (s : Server) (r : Request) (v : String)
    (hh : s.handler = InstalledHandler.default) (hr : s.IsRecoverable = false) :
    serveRequest s r (.panics v) =
      (s, { escapedPanic := some v, printed := none, status := none }) := by
  obtain ⟨mk, ip, tl, hd⟩ := s
  subst hh
  simp [serveRequest, makeHandler, hr]

/-- Witness for C2 at a concrete server and request. -/
theorem notrecoverable_panic_propagates_witness :
    serveRequest (NewServer.NotRecoverable) ⟨"GET", "/x", [], []⟩ (.panics "boom") =
      (NewServer.NotRecoverable,
       { escapedPanic := some "boom", printed := none, status := none }) :=
  notrecoverable_panic_propagates NewServer.NotRecoverable ⟨"GET", "/x", [], []⟩
    "boom" rfl rfl

/-- Claim C3: every server built by `NewServer` or `NewServerWithConfig`
(for any configuration) starts Recoverable, and stays Recoverable under any
sequence of exported operations that does not include `NotRecoverable`. -/
theorem servers_start_recoverable :
    NewServer.IsRecoverable = true ∧
    (∀ cfg : ServerConfig, (NewServerWithConfig cfg).IsRecoverable = true) ∧
    (∀ (s : Server) (ops : List ServerOp), s.IsRecoverable = true →
      (∀ op ∈ ops, op ≠ ServerOp.notRecoverable) →
      (applyOps s ops).IsRecoverable = true) := by
  refine ⟨rfl, fun cfg => rfl, fun s ops hs hops => ?_⟩
  have h : s.ignorePanic = false := by
    simpa [Server.IsRecoverable] using hs
  simp [Server.IsRecoverable, applyOps_ignorePanic_false ops s h hops]

/-- Witness for C3: a fresh server stays Recoverable across registration and
dispatch operations. -/
theorem servers_start_recoverable_witness :
    (applyOps NewServer
        [ServerOp.onReq "GET" "/w" none,
         ServerOp.serve ⟨"GET", "/w", [], []⟩ (.completes none),
         ServerOp.isRecoverable]).IsRecoverable = true :=
  servers_start_recoverable.2.2 NewServer
    [ServerOp.onReq "GET" "/w" none,
     ServerOp.serve ⟨"GET", "/w", [], []⟩ (.completes none),
     ServerOp.isRecoverable]
    rfl (by decide)

/-- Claim C4: the panic-policy switch is irreversible: after
`NotRecoverable`, any sequence of exported operations (including further
`NotRecoverable`, `IsRecoverable`, `On`, and dispatch) leaves
`IsRecoverable` false. -/
theorem notrecoverable_irreversible (s : Server) (ops : List ServerOp) :
    (applyOps (s.NotRecoverable) ops).IsRecoverable = false := by
  simp [Server.IsRecoverable,
    applyOps_ignorePanic_true ops s.NotRecoverable rfl]

/-- Claim C5: with the default handler, dispatch first obtains a response
through `Mock.Requested`, then writes it; on a write error the handler
records the failure built by `writeFailMsg` (naming the matched request
expectation and the error) through `Mock.fail` and does not panic. -/
theorem write_error_recorded (s : Server) (r : Request) (err : String)
    (hh : s.handler = InstalledHandler.default) :
    (serveRequest s r (.completes (some err))).1 =
      { s with mock := (((s.mock.Requested r).1).fail
          (writeFailMsg ((s.mock.Requested r).2).parentDesc err)) } ∧
    (serveRequest s r (.completes (some err))).2.escapedPanic = none := by
  obtain ⟨mk, ip, tl, hd⟩ := s
  subst hh
  constructor <;> simp [serveRequest, makeHandler]

/-- Witness for C5 at a concrete server, request, and write error. -/
theorem write_error_recorded_witness :
    (serveRequest NewServer ⟨"GET", "/x", [], []⟩ (.completes (some "broken pipe"))).1 =
      { NewServer with mock :=
          (((NewServer.mock.Requested ⟨"GET", "/x", [], []⟩).1).fail
            (writeFailMsg ((NewServer.mock.Requested ⟨"GET", "/x", [], []⟩).2).parentDesc
              "broken pipe")) } ∧
    (serveRequest NewServer ⟨"GET", "/x", [], []⟩
        (.completes (some "broken pipe"))).2.escapedPanic = none :=
  write_error_recorded NewServer ⟨"GET", "/x", [], []⟩ "broken pipe" rfl

/-- Claim C6: `Server.On` is a pure passthrough to `Mock.On`: it returns the
same expectation handle, installs exactly the mock `Mock.On` produces, and
changes nothing else on the server. -/
theorem on_passthrough (s : Server) (method URL : String)
    (body : Option (List Nat)) :
    (s.On method URL body).2 = (s.mock.On method URL body).2 ∧
    (s.On method URL body).1.mock = (s.mock.On method URL body).1 ∧
    (s.On method URL body).1.ignorePanic = s.ignorePanic ∧
    (s.On method URL body).1.tls = s.tls ∧
    (s.On method URL body).1.handler = s.handler := by
  refine ⟨rfl, rfl, rfl, rfl, rfl⟩

end Httpmock

namespace Httpmock

/-- Claim C9: no process-global state: each constructor call allocates a
fresh instance (its identity is the current heap size, distinct from every
existing identity and from the next allocation), and any exported operation
applied to one server leaves every other server — its mock, failures, and
panic policy — unchanged. -/
theorem instances_noninterfere (w : World) (i j : Nat) (op : ServerOp)
    (cfg : ServerConfig) (hij : i ≠ j) :
    (NewServerW w).2 = w.servers.length ∧
    (NewServerWithConfigW w cfg).2 = w.servers.length ∧
    (∀ k, k < w.servers.length → (NewServerW w).2 ≠ k) ∧
    (NewServerW (NewServerW w).1).2 ≠ (NewServerW w).2 ∧
    (applyOpW w i op).servers[j]? = w.servers[j]? := by
  refine ⟨rfl, rfl, fun k hk => ?_, ?_, ?_⟩
  · exact Nat.ne_of_gt hk
  · simp [NewServerW]
  · unfold applyOpW
    cases h : w.servers[i]? with
    | none => rfl
    | some s => exact List.getElem?_set_ne hij

/-- Witness for C9: an operation on the first of two servers leaves the
second untouched. -/
theorem instances_noninterfere_witness :
    (applyOpW ⟨[NewServer, NewServer.NotRecoverable]⟩ 0
        (ServerOp.onReq "GET" "/w" none)).servers[1]? =
      (⟨[NewServer, NewServer.NotRecoverable]⟩ : World).servers[1]? :=
  (instances_noninterfere ⟨[NewServer, NewServer.NotRecoverable]⟩ 0 1
    (ServerOp.onReq "GET" "/w" none) ⟨false, none⟩ (by decide)).2.2.2.2

/-- Claim C10: a non-nil configured handler is installed directly and
unwrapped by `NewServerWithConfig`, so the library's dispatch logic never
runs on such a server: dispatch leaves the server (hence its mock and
failure list) unchanged, a panic in the custom handler escapes regardless of
the recoverability state with nothing printed and no 404 written, a
completed custom handler writes its own status, and only a nil configured
handler yields the default dispatch handler. -/
theorem custom_handler_unwrapped (cfg : ServerConfig)
    (f : Request → CustomResult) (s : Server) (r : Request)
    (ev : DispatchEvent) (hc : cfg.Handler = some f)
    (hs : s.handler = InstalledHandler.custom f) :
    (NewServerWithConfig cfg).handler = InstalledHandler.custom f ∧
    (serveRequest s r ev).1 = s ∧
    (∀ v, f r = CustomResult.panics v →
      (serveRequest s r ev).2 =
        { escapedPanic := some v, printed := none, status := none }) ∧
    (∀ st, f r = CustomResult.writes st →
      (serveRequest s r ev).2 =
        { escapedPanic := none, printed := none, status := some st }) ∧
    (∀ cfg2 : ServerConfig, cfg2.Handler = none →
      (NewServerWithConfig cfg2).handler = InstalledHandler.default) := by
  refine ⟨?_, ?_, ?_, ?_, ?_⟩
  · simp [NewServerWithConfig, hc]
  · obtain ⟨mk, ip, tl, hd⟩ := s
    simp only at hs
    subst hs
    cases hf : f r <;> simp [serveRequest, hf]
  · intro v hv
    obtain ⟨mk, ip, tl, hd⟩ := s
    simp only at hs
    subst hs
    simp [serveRequest, hv]
  · intro st hst
    obtain ⟨mk, ip, tl, hd⟩ := s
    simp only at hs
    subst hs
    simp [serveRequest, hst]
  · intro cfg2 h2
    simp [NewServerWithConfig, h2]

/-- Witness for C10: a panicking custom handler on a recoverable server is
not intercepted. -/
theorem custom_handler_unwrapped_witness :
    (serveRequest (NewServerWithConfig ⟨false, some (fun _ => CustomResult.panics "boom")⟩)
        ⟨"GET", "/x", [], []⟩ (.completes none)).2 =
      { escapedPanic := some "boom", printed := none, status := none } :=
  (custom_handler_unwrapped ⟨false, some (fun _ => CustomResult.panics "boom")⟩
    (fun _ => CustomResult.panics "boom")
    (NewServerWithConfig ⟨false, some (fun _ => CustomResult.panics "boom")⟩)
    ⟨"GET", "/x", [], []⟩ (.completes none) rfl rfl).2.2.1 "boom" rfl

end Httpmock

namespace Httpmock

/-- If every expectation strictly before position `i` fails the
eligible-match test and the expectation at `i` passes it, the scan stops at
`i`: it increments that expectation's count and returns its response. -/
lemma requestedScan_grants (es : List Expectation) (r : Request) :
    ∀ (i : Nat) (e : Expectation),
    es[i]? = some e →
    (∀ k, k < i → ∀ e2, es[k]? = some e2 →
      (Matches e2 r && e2.eligible) = false) →
    (Matches e r && e.eligible) = true →
    requestedScan es r =
      some (es.set i { e with timesMatched := e.timesMatched + 1 }, e.response) := by
  induction es with
  | nil =>
    intro i e hei _ _
    simp at hei
  | cons a rest ih =>
    intro i e hei hbefore hmatch
    cases i with
    | zero =>
      rw [List.getElem?_cons_zero] at hei
      injection hei with hei
      subst hei
      simp [requestedScan, hmatch]
    | succ n =>
      have ha : (Matches a r && a.eligible) = false :=
        hbefore 0 (Nat.succ_pos n) a List.getElem?_cons_zero
      rw [List.getElem?_cons_succ] at hei
      have hrest := ih n e hei
        (fun k hk e2 he2 => hbefore (k + 1) (Nat.succ_lt_succ hk) e2
          (by rw [List.getElem?_cons_succ]; exact he2))
        hmatch
      simp [requestedScan, ha, hrest]

/-- Consuming a still-eligible expectation preserves the count invariant. -/
lemma countInvariant_incr (e : Expectation) (he : e.eligible = true) :
    Expectation.countInvariant { e with timesMatched := e.timesMatched + 1 } := by
  cases h : e.timesExpected with
  | none => simp [Expectation.countInvariant, h]
  | some n =>
    have hlt : e.timesMatched < n := by
      simpa [Expectation.eligible, h] using he
    simp only [Expectation.countInvariant, h]
    omega

/-- A successful scan preserves the count invariant across the whole
registry. -/
lemma requestedScan_preserves_countInvariant (es : List Expectation)
    (r : Request) (h : ∀ e ∈ es, e.countInvariant) :
    ∀ p, requestedScan es r = some p → ∀ e ∈ p.1, e.countInvariant := by
  induction es with
  | nil =>
    intro p hp
    simp [requestedScan] at hp
  | cons a rest ih =>
    intro p hp e he
    rw [requestedScan] at hp
    split at hp
    · rename_i hcond
      injection hp with hp
      subst hp
      rcases List.mem_cons.mp he with hea | her
      · subst hea
        exact countInvariant_incr a (Bool.and_eq_true_iff.mp hcond).2
      · exact h e (List.mem_cons_of_mem a her)
    · cases hsc : requestedScan rest r with
      | none => rw [hsc] at hp; simp at hp
      | some q =>
        rw [hsc] at hp
        rw [Option.map_some'] at hp
        injection hp with hp
        subst hp
        rcases List.mem_cons.mp he with hea | heq
        · subst hea
          exact h e (List.mem_cons_self e rest)
        · exact ih (fun e2 he2 => h e2 (List.mem_cons_of_mem a he2)) q hsc e heq

/-- Iterated dispatch of the same request against one registry. -/
def iterRequested (m : Mock) (r : Request) : Nat → Mock
  | 0 => m
  | k + 1 => ((iterRequested m r k).Requested r).1

/-- On a one-expectation registry with repeat bound `N` and a matching
request, the first `k ≤ N` dispatches each consume the expectation and
record no failure. -/
lemma iterRequested_consumes (E : Expectation) (r : Request) (N : Nat)
    (hE : E.timesExpected = some N) (hE0 : E.timesMatched = 0)
    (hmatch : Matches E r = true) :
    ∀ k, k ≤ N → iterRequested ⟨[E], []⟩ r k =
      ⟨[{ E with timesMatched := k }], []⟩ := by
  obtain ⟨em, eu, eb, eh, er, ete, etm⟩ := E
  simp only at hE hE0
  subst hE
  subst hE0
  intro k hk
  induction k with
  | zero => rfl
  | succ n ihn =>
    have hn : n < N := Nat.lt_of_succ_le hk
    rw [iterRequested, ihn (Nat.le_of_lt hn)]
    have hmn : Matches ⟨em, eu, eb, eh, er, some N, n⟩ r = true := hmatch
    have hel : Expectation.eligible ⟨em, eu, eb, eh, er, some N, n⟩ = true := by
      simp [Expectation.eligible, hn]
    have hsc : requestedScan [⟨em, eu, eb, eh, er, some N, n⟩] r =
        some ([⟨em, eu, eb, eh, er, some N, n + 1⟩], er) := by
      simp [requestedScan, hmn, hel]
    simp [Mock.Requested, hsc]

/-- Claim C8: the count invariant `timesMatched ≤ timesExpected` is
preserved by registration and by dispatch; a one-expectation registry with
`timesExpected = N` grants the first `k ≤ N` matching requests (reaching
`timesMatched = k` with no failure), and the (N+1)-th matching request hits
`NoMatchFound`: the synthetic 404 response plus a recorded failure. -/
theorem times_expected_enforced (m : Mock) (method URL : String)
    (body : Option (List Nat)) (r : Request) (E : Expectation) (N k : Nat)
    (hinv : ∀ e ∈ m.expectations, e.countInvariant)
    (hE : E.timesExpected = some N) (hE0 : E.timesMatched = 0)
    (hmatch : Matches E r = true) (hk : k ≤ N) :
    (∀ e ∈ ((m.On method URL body).1).expectations, e.countInvariant) ∧
    (∀ e ∈ ((m.Requested r).1).expectations, e.countInvariant) ∧
    iterRequested ⟨[E], []⟩ r k = ⟨[{ E with timesMatched := k }], []⟩ ∧
    (iterRequested ⟨[E], []⟩ r N).Requested r =
      (⟨[{ E with timesMatched := N }], [noMatchMsg r]⟩, notFoundResponse) := by
  refine ⟨?_, ?_, iterRequested_consumes E r N hE hE0 hmatch k hk, ?_⟩
  · intro e he
    rcases List.mem_append.mp he with h1 | h2
    · exact hinv e h1
    · rcases List.mem_singleton.mp h2 with rfl
      simp [newExpectation, Expectation.countInvariant]
  · intro e he
    rw [Mock.Requested] at he
    cases hsc : requestedScan m.expectations r with
    | none =>
      rw [hsc] at he
      exact hinv e he
    | some p =>
      rw [hsc] at he
      exact requestedScan_preserves_countInvariant m.expectations r hinv p hsc e he
  · rw [iterRequested_consumes E r N hE hE0 hmatch N (Nat.le_refl N)]
    have hel : Expectation.eligible { E with timesMatched := N } = false := by
      simp [Expectation.eligible, hE]
    have hsc : requestedScan [{ E with timesMatched := N }] r = none := by
      simp [requestedScan, hel]
    simp [Mock.Requested, hsc, Mock.fail]

/-- Witness for C8 at `N = 1`: the first matching request is granted, the
second yields the 404 response and a recorded failure. -/
theorem times_expected_enforced_witness :
    iterRequested ⟨[newExpectation "GET" "/w" none], []⟩ ⟨"GET", "/w", [], []⟩ 1 =
      ⟨[{ newExpectation "GET" "/w" none with timesMatched := 1 }], []⟩ ∧
    (iterRequested ⟨[newExpectation "GET" "/w" none], []⟩
        ⟨"GET", "/w", [], []⟩ 1).Requested ⟨"GET", "/w", [], []⟩ =
      (⟨[{ newExpectation "GET" "/w" none with timesMatched := 1 }],
        [noMatchMsg ⟨"GET", "/w", [], []⟩]⟩, notFoundResponse) :=
  (times_expected_enforced ⟨[], []⟩ "GET" "/w" none ⟨"GET", "/w", [], []⟩
    (newExpectation "GET" "/w" none) 1 1
    (fun e he => absurd he (List.not_mem_nil e)) rfl rfl (by decide)
    (by decide)).2.2

end Httpmock

namespace Httpmock

/-- Claim C7: `Requested` scans in registration order and the
first-registered, still-eligible match wins.  For expectations `E1` (at
position `i`) registered before `E2` (at position `j`), both matching the
request, with nothing before `E1` an eligible match: while `E1` still has
remaining allowed matches the request is granted to `E1` (its count is
incremented and its response returned); once `E1` is exhausted — and no
eligible match sits between the two — the request is granted to `E2`. -/
theorem first_eligible_wins (m : Mock) (r : Request) (i j : Nat)
    (E1 E2 : Expectation) (hij : i < j)
    (h1 : m.expectations[i]? = some E1)
    (h2 : m.expectations[j]? = some E2)
    (hm1 : Matches E1 r = true) (hm2 : Matches E2 r = true)
    (hbefore : ∀ k, k < i → ∀ e, m.expectations[k]? = some e →
      (Matches e r && e.eligible) = false) :
    (E1.eligible = true →
      m.Requested r =
        ({ m with expectations := (m.expectations.set i
            { E1 with timesMatched := E1.timesMatched + 1 }) }, E1.response)) ∧
    (E1.eligible = false →
      (∀ k, i < k → k < j → ∀ e, m.expectations[k]? = some e →
        (Matches e r && e.eligible) = false) →
      E2.eligible = true →
      m.Requested r =
        ({ m with expectations := (m.expectations.set j
            { E2 with timesMatched := E2.timesMatched + 1 }) }, E2.response)) := by
  constructor
  · intro he
    have hsc := requestedScan_grants m.expectations r i E1 h1 hbefore
      (by rw [hm1, he]; rfl)
    simp [Mock.Requested, hsc]
  · intro he1 hmid he2
    have hb : ∀ k, k < j → ∀ e, m.expectations[k]? = some e →
        (Matches e r && e.eligible) = false := by
      intro k hk e he
      rcases Nat.lt_trichotomy k i with h | h | h
      · exact hbefore k h e he
      · subst h
        rw [h1] at he
        injection he with he
        subst he
        rw [he1]
        simp
      · exact hmid k h hk e he
    have hsc := requestedScan_grants m.expectations r j E2 h2 hb
      (by rw [hm2, he2]; rfl)
    simp [Mock.Requested, hsc]

/-- Witness for C7: two identical overlapping expectations; the request is
granted to the first-registered one. -/
theorem first_eligible_wins_witness :
    Mock.Requested
        ⟨[newExpectation "GET" "/w" none, newExpectation "GET" "/w" none], []⟩
        ⟨"GET", "/w", [], []⟩ =
      (⟨[{ newExpectation "GET" "/w" none with timesMatched := 1 },
         newExpectation "GET" "/w" none], []⟩,
       (newExpectation "GET" "/w" none).response) :=
  (first_eligible_wins
    ⟨[newExpectation "GET" "/w" none, newExpectation "GET" "/w" none], []⟩
    ⟨"GET", "/w", [], []⟩ 0 1
    (newExpectation "GET" "/w" none) (newExpectation "GET" "/w" none)
    (by decide) rfl rfl (by decide) (by decide)
    (fun k hk e he => absurd hk (Nat.not_lt_zero k))).1 (by decide)

end Httpmock
